import Mathlib

/-!
Shallow embedding of the vector-store adapter in
src/context_db_mcp/vector_store.py (classes IngestDocumentRequest,
RetrieveRelevantChunksRequest and OpenAIContextStore) together with the
parts of config.py (Settings) that the adapter reads.

The remote OpenAI client is modelled by an explicit world state
(RemoteWorld) holding the remote stores, whether listing fails, and the
remote-determined outcome of an upload or a search.  Every operation
threads the world and additionally emits a trace of the remote calls it
issued and of the warnings it logged, so that "no remote call is
attempted" and "a warning is logged" become provable statements.

Python `datetime.now` is modelled by explicit parameters (an ISO string
for attribute composition, a Nat epoch for filename derivation).
-/

set_option autoImplicit false

namespace ContextDb

/-- Values of the Python type alias
    AttributesType = Dict[str, Union[str, float, bool]]. -/
inductive AttrValue where
  | s (v : String)
  | num (v : ℚ)
  | b (v : Bool)
  deriving DecidableEq

/-- A Python dict used as an attribute set: insertion-ordered key/value
    association list; lookups return the first (unique) binding. -/
abbrev Attrs := List (String × AttrValue)

/-- First-match lookup in an attribute dict (Python `d[k]` / `k in d`). -/
def lookupAttr : Attrs → String → Option AttrValue
  | [], _ => none
  | (k, v) :: rest, key => if k = key then some v else lookupAttr rest key

/-- Python `dict.setdefault`: insert the binding at the end only when the
    key is absent; an existing binding is never changed. -/
def setdefaultAttr (a : Attrs) (k : String) (v : AttrValue) : Attrs :=
  if (lookupAttr a k).isSome then a else a ++ [(k, v)]

/-- Emptiness of a Python string, stated on its character list. -/
def strIsEmpty (s : String) : Bool := s.data.isEmpty

/-- Python truthiness of an `Optional[str]`: `None` and `""` are falsy. -/
def truthyStr : Option String → Bool
  | none => false
  | some s => !(strIsEmpty s)

/-- Python `str.isspace` characters relevant to `str.strip()`
    (ASCII whitespace: space, tab, newline, carriage return, vertical
    tab, form feed). -/
def pyIsSpace (c : Char) : Bool :=
  c = ' ' || c = '\t' || c = '\n' || c = '\r' || c = '\x0b' || c = '\x0c'

/-- Python `str.strip()`: drop leading and trailing whitespace. -/
def pyStrip (s : String) : String :=
  String.mk (((s.data.dropWhile pyIsSpace).reverse.dropWhile pyIsSpace).reverse)

/-- Character-wise map on a Python string (`str.lower`, `str.replace`
    with single-character arguments are per-character operations). -/
def mapChars (f : Char → Char) (s : String) : String := String.mk (s.data.map f)

/-- Python slicing `s[:n]`: the first `n` characters. -/
def takeChars (n : Nat) (s : String) : String := String.mk (s.data.take n)

/-- The character substitution of `str.replace(" ", "-")`. -/
def spaceToHyphen (c : Char) : Char := if c = ' ' then '-' else c

/-- Result of an adapter operation: either a value or one of the raised
    errors (pydantic ValidationError, openai NotFoundError, the
    ValueError for missing configuration). -/
inductive VSError where
  | validation
  | notFound (id : String)
  | configuration
  deriving DecidableEq

/-- Fallible computation (Python raise / return). -/
inductive VSResult (α : Type) where
  | ok (value : α)
  | error (e : VSError)
  deriving DecidableEq

/-- A remote vector store object as exposed by the OpenAI client
    (only the fields the adapter reads). -/
structure VectorStore where
  id : String
  name : Option String
  deriving DecidableEq

/-- config.Settings, restricted to the fields the adapter reads at
    request time. -/
structure Settings where
  default_vector_store_id : Option String := none
  default_vector_store_name : Option String := none
  default_max_results : Int := 10
  deriving DecidableEq

/-- One remote API call issued by the adapter. -/
inductive RemoteCall where
  | retrieveStore (id : String)
  | listStores
  | createStore (name : String) (metadata : Option Attrs)
  | upload (storeId : String) (filename : String) (attributes : Option Attrs)
  | search (storeId : String) (query : String) (maxResults : Int)
  deriving DecidableEq

/-- Whether a remote call is a store-creation call. -/
def RemoteCall.isCreate : RemoteCall → Bool
  | .createStore _ _ => true
  | _ => false

/-- The observable effects of an operation: remote calls issued, in
    order, and warnings logged. -/
structure Trace where
  calls : List RemoteCall := []
  warnings : List String := []
  deriving DecidableEq

/-- Trace concatenation. -/
def Trace.app (a b : Trace) : Trace := ⟨a.calls ++ b.calls, a.warnings ++ b.warnings⟩

/-- One content part of a remote search result
    (`chunk.type` / `chunk.text`). -/
structure ContentChunk where
  type : String
  text : String
  deriving DecidableEq

/-- One remote search result row. -/
structure SearchResult where
  file_id : String
  filename : String
  score : ℚ
  content : List ContentChunk
  attributes : Option Attrs
  deriving DecidableEq

/-- Remote-determined outcome of `files.upload_and_poll`. -/
structure UploadOutcome where
  fileId : String := "file-1"
  status : String := "completed"
  deriving DecidableEq

/-- The state of the remote OpenAI service, as far as the adapter can
    observe it: the remote stores (newest first, the order `list` with
    order="desc" returns), whether a listing call fails, and the
    remote-chosen results of uploads and searches. -/
structure RemoteWorld where
  stores : List VectorStore := []
  listFails : Bool := false
  upload : UploadOutcome := {}
  searchResults : List SearchResult := []
  deriving DecidableEq

/-- vector_store.IngestDocumentRequest.  `chunking_strategy` is an
    opaque payload forwarded verbatim; it is modelled by an opaque
    string. -/
structure IngestDocumentRequest where
  content : String
  vector_store_id : Option String := none
  vector_store_name : Option String := none
  document_id : Option String := none
  filename : Option String := none
  summary : Option String := none
  attributes : Option Attrs := none
  chunking_strategy : Option String := none
  mime_type : String := "text/plain"
  deriving DecidableEq

/-- vector_store.IngestDocumentResponse. -/
structure IngestDocumentResponse where
  vector_store_id : String
  vector_store_name : Option String
  file_id : String
  filename : String
  status : String
  attributes : Option Attrs
  deriving DecidableEq

/-- vector_store.RetrieveRelevantChunksRequest.  Note: the model has no
    vector-store *name* field; only an id can be supplied. -/
structure RetrieveRelevantChunksRequest where
  query : String
  vector_store_id : Option String := none
  max_results : Option Int := none
  score_threshold : Option ℚ := none
  attributes_filter : Option Attrs := none
  rewrite_query : Option Bool := none
  deriving DecidableEq

/-- vector_store.RetrievedChunk. -/
structure RetrievedChunk where
  file_id : String
  filename : String
  score : ℚ
  text : String
  attributes : Option Attrs
  deriving DecidableEq

/-- vector_store.RetrieveRelevantChunksResponse. -/
structure RetrieveRelevantChunksResponse where
  vector_store_id : String
  query : String
  results : List RetrievedChunk
  deriving DecidableEq

/-- The pydantic validation of IngestDocumentRequest: the
    `ensure_store_reference` model validator raises when the content is
    empty after stripping whitespace. -/
def validate_ingest_request (r : IngestDocumentRequest) :
    VSResult IngestDocumentRequest :=
  if strIsEmpty (pyStrip r.content) then .error .validation else .ok r

/-- The pydantic field constraint on `max_results` (ge=1, le=50);
    vacuously true when the field is omitted. -/
def max_results_ok : Option Int → Bool
  | none => true
  | some m => decide (1 ≤ m) && decide (m ≤ 50)

/-- The pydantic validation of RetrieveRelevantChunksRequest: the field
    bounds on `max_results`, then the `ensure_query` model validator
    which raises when the query is empty after stripping whitespace. -/
def validate_retrieve_request (r : RetrieveRelevantChunksRequest) :
    VSResult RetrieveRelevantChunksRequest :=
  if !(max_results_ok r.max_results) then .error .validation
  else if strIsEmpty (pyStrip r.query) then .error .validation
  else .ok r

/-- Model of the remote client call `vector_stores.retrieve(id)`:
    fetches the store with that id; a missing id raises NotFoundError.
    The world is unchanged. -/
def vector_stores_retrieve (w : RemoteWorld) (id : String) :
    VSResult VectorStore × RemoteWorld × Trace :=
  match w.stores.find? (fun s => s.id == id) with
  | some s => (.ok s, w, ⟨[.retrieveStore id], []⟩)
  | none => (.error (.notFound id), w, ⟨[.retrieveStore id], []⟩)

/-- The id generated by the remote service for a newly created store. -/
def freshId (w : RemoteWorld) : String := "vs-" ++ toString w.stores.length

/-- Model of the remote client call `vector_stores.create(name, metadata)`:
    a new store appears (newest first) in the remote listing. -/
def vector_stores_create (w : RemoteWorld) (name : String)
    (metadata : Option Attrs) : VectorStore × RemoteWorld × Trace :=
  let s : VectorStore := ⟨freshId w, some name⟩
  (s, { w with stores := s :: w.stores }, ⟨[.createStore name metadata], []⟩)

/-- OpenAIContextStore._find_vector_store_by_name: list the remote
    stores and return the first whose name equals `name` exactly
    (case-sensitive).  A listing failure is caught, logged as a warning
    and treated as "no match found". -/
def find_vector_store_by_name (w : RemoteWorld) (name : String) :
    Option VectorStore × Trace :=
  if w.listFails then
    (none, ⟨[.listStores], ["Failed to list vector stores"]⟩)
  else
    (w.stores.find? (fun s => s.name == some name), ⟨[.listStores], []⟩)

/-- The find-or-create step of OpenAIContextStore.ensure_vector_store
    (duplicated in the source for the request name and the default
    name): return the existing store with the given name, else create
    one with that name and the given metadata. -/
def find_or_create (w : RemoteWorld) (name : String)
    (metadata : Option Attrs) : VSResult VectorStore × RemoteWorld × Trace :=
  match find_vector_store_by_name w name with
  | (some s, t) => (.ok s, w, t)
  | (none, t) =>
    let c := vector_stores_create w name metadata
    (.ok c.1, c.2.1, t.app c.2.2)

/-- OpenAIContextStore.ensure_vector_store: resolve or lazily create a
    vector store.  The branch conditions are Python truthiness tests, so
    an empty string behaves like an absent value. -/
def ensure_vector_store (w : RemoteWorld) (st : Settings)
    (vector_store_id vector_store_name : Option String)
    (metadata : Option Attrs) : VSResult VectorStore × RemoteWorld × Trace :=
  if truthyStr vector_store_id then
    vector_stores_retrieve w (vector_store_id.getD "")
  else if !(truthyStr vector_store_name) then
    if truthyStr st.default_vector_store_id then
      vector_stores_retrieve w (st.default_vector_store_id.getD "")
    else if truthyStr st.default_vector_store_name then
      find_or_create w (st.default_vector_store_name.getD "") metadata
    else
      (.error .configuration, w, ⟨[], []⟩)
  else
    find_or_create w (vector_store_name.getD "") metadata

/-- OpenAIContextStore._derive_filename.  `nowTs` models the epoch
    timestamp `int(datetime.now(timezone.utc).timestamp())`. -/
def derive_filename (r : IngestDocumentRequest) (nowTs : Nat) : String :=
  if truthyStr r.document_id then r.document_id.getD "" ++ ".txt"
  else if truthyStr r.summary then
    let slug := takeChars 40
      (mapChars spaceToHyphen (mapChars Char.toLower (r.summary.getD "")))
    (if strIsEmpty slug then "context" else slug)
      ++ "-" ++ toString nowTs ++ ".txt"
  else
    "context-" ++ toString nowTs ++ ".txt"

/-- The filename used by OpenAIContextStore.ingest:
    `request.filename or self._derive_filename(request)` (Python `or`,
    so an empty-string filename falls through to derivation). -/
def ingest_filename (r : IngestDocumentRequest) (nowTs : Nat) : String :=
  if truthyStr r.filename then r.filename.getD "" else derive_filename r nowTs

/-- The `attributes.setdefault("document_id", ...)` step of ingest,
    guarded by the truthiness of `request.document_id`. -/
def setdefault_document_id (r : IngestDocumentRequest) (a : Attrs) : Attrs :=
  if truthyStr r.document_id then
    setdefaultAttr a "document_id" (.s (r.document_id.getD ""))
  else a

/-- The `attributes.setdefault("summary", ...)` step of ingest, guarded
    by the truthiness of `request.summary`. -/
def setdefault_summary (r : IngestDocumentRequest) (a : Attrs) : Attrs :=
  if truthyStr r.summary then
    setdefaultAttr a "summary" (.s (r.summary.getD ""))
  else a

/-- The attribute composition of OpenAIContextStore.ingest: a copy of
    the caller's attributes (`dict(request.attributes or {})`), then
    setdefault of document_id, summary and ingested_at.  `nowIso` models
    `datetime.now(timezone.utc).isoformat()`. -/
def compose_attributes (r : IngestDocumentRequest) (nowIso : String) : Attrs :=
  setdefaultAttr (setdefault_summary r (setdefault_document_id r
    (r.attributes.getD []))) "ingested_at" (.s nowIso)

/-- The `attributes or None` argument of the upload call: an empty
    composed set is passed as no attributes at all. -/
def upload_attr_arg (a : Attrs) : Option Attrs :=
  if a.isEmpty then none else some a

/-- OpenAIContextStore.ingest. -/
def ingest (w : RemoteWorld) (st : Settings) (r : IngestDocumentRequest)
    (nowIso : String) (nowTs : Nat) :
    VSResult IngestDocumentResponse × RemoteWorld × Trace :=
  let metadata : Option Attrs :=
    if truthyStr r.vector_store_name then some [] else none
  match ensure_vector_store w st r.vector_store_id r.vector_store_name metadata with
  | (.error e, w2, t) => (.error e, w2, t)
  | (.ok vs, w2, t) =>
    let filename := ingest_filename r nowTs
    let attributes := compose_attributes r nowIso
    let t2 := t.app ⟨[.upload vs.id filename (upload_attr_arg attributes)], []⟩
    let t3 := if w2.upload.status == "completed" then t2
      else t2.app ⟨[], ["Vector store file completed with status "
        ++ w2.upload.status]⟩
    (.ok { vector_store_id := vs.id
           vector_store_name := vs.name
           file_id := w2.upload.fileId
           filename := filename
           status := w2.upload.status
           attributes := upload_attr_arg attributes },
     w2, t3)

/-- The text assembly of OpenAIContextStore.retrieve: join the text of
    the content parts whose type is "text" with blank lines. -/
def assemble_text (content : List ContentChunk) : String :=
  String.intercalate "\n\n"
    ((content.filter (fun c => c.type == "text")).map ContentChunk.text)

/-- Conversion of one remote search result into a RetrievedChunk. -/
def to_retrieved_chunk (r : SearchResult) : RetrievedChunk :=
  { file_id := r.file_id
    filename := r.filename
    score := r.score
    text := assemble_text r.content
    attributes := r.attributes }

/-- The skip test of the retrieval loop: a result is dropped exactly
    when a threshold is present and the score is strictly below it. -/
def keep_result (threshold : Option ℚ) (r : SearchResult) : Bool :=
  match threshold with
  | some t => !(decide (r.score < t))
  | none => true

/-- The collection loop of OpenAIContextStore.retrieve: results passing
    the threshold test are appended in the order the remote returned
    them. -/
def collect_results : Option ℚ → List SearchResult → List RetrievedChunk
  | _, [] => []
  | th, r :: rs =>
    if keep_result th r then to_retrieved_chunk r :: collect_results th rs
    else collect_results th rs

/-- Python `request.max_results or default`: `None` (and the falsy 0,
    which validation excludes) fall back to the configured default. -/
def pyOrInt (o : Option Int) (d : Int) : Int :=
  match o with
  | some m => if m = 0 then d else m
  | none => d

/-- OpenAIContextStore.retrieve.  The store is resolved with
    `ensure_vector_store(vector_store_id=request.vector_store_id,
    vector_store_name=None)`. -/
def retrieve (w : RemoteWorld) (st : Settings)
    (r : RetrieveRelevantChunksRequest) :
    VSResult RetrieveRelevantChunksResponse × RemoteWorld × Trace :=
  match ensure_vector_store w st r.vector_store_id none none with
  | (.error e, w2, t) => (.error e, w2, t)
  | (.ok vs, w2, t) =>
    let max_results := pyOrInt r.max_results st.default_max_results
    let collected := collect_results r.score_threshold w2.searchResults
    (.ok { vector_store_id := vs.id
           query := r.query
           results := collected },
     w2, t.app ⟨[.search vs.id r.query max_results], []⟩)

/-- The ingest_document tool: pydantic builds (and validates) the
    request, then OpenAIContextStore.ingest runs.  A validation failure
    happens before any remote call. -/
def ingest_document (w : RemoteWorld) (st : Settings)
    (r : IngestDocumentRequest) (nowIso : String) (nowTs : Nat) :
    VSResult IngestDocumentResponse × RemoteWorld × Trace :=
  match validate_ingest_request r with
  | .error e => (.error e, w, ⟨[], []⟩)
  | .ok r2 => ingest w st r2 nowIso nowTs

/-- The retrieve_relevant_chunks tool: pydantic builds (and validates)
    the request, then OpenAIContextStore.retrieve runs. -/
def retrieve_relevant_chunks (w : RemoteWorld) (st : Settings)
    (r : RetrieveRelevantChunksRequest) :
    VSResult RetrieveRelevantChunksResponse × RemoteWorld × Trace :=
  match validate_retrieve_request r with
  | .error e => (.error e, w, ⟨[], []⟩)
  | .ok r2 => retrieve w st r2

/-! ### Dictionary lemmas -/

theorem lookupAttr_append_left {a : Attrs} {k : String} {v : AttrValue}
    (h : lookupAttr a k = some v) (b : Attrs) :
    lookupAttr (a ++ b) k = some v := by
  induction a with
  | nil => simp [lookupAttr] at h
  | cons p rest ih =>
    obtain ⟨k', v'⟩ := p
    by_cases hk : k' = k
    · simpa [lookupAttr, hk] using h
    · rw [List.cons_append]
      simp only [lookupAttr, if_neg hk] at h ⊢
      exact ih h

theorem lookupAttr_append_right {a : Attrs} {k : String}
    (h : lookupAttr a k = none) (b : Attrs) :
    lookupAttr (a ++ b) k = lookupAttr b k := by
  induction a with
  | nil => rfl
  | cons p rest ih =>
    obtain ⟨k', v'⟩ := p
    by_cases hk : k' = k
    · simp [lookupAttr, hk] at h
    · rw [List.cons_append]
      simp only [lookupAttr, if_neg hk] at h ⊢
      exact ih h

theorem lookupAttr_setdefault_of_some {a : Attrs} {k : String} {v : AttrValue}
    (h : lookupAttr a k = some v) (k' : String) (v' : AttrValue) :
    lookupAttr (setdefaultAttr a k' v') k = some v := by
  unfold setdefaultAttr
  split
  · exact h
  · exact lookupAttr_append_left h _

theorem lookupAttr_setdefault_ne {a : Attrs} {k k' : String}
    (hne : ¬ k' = k) (v' : AttrValue) :
    lookupAttr (setdefaultAttr a k' v') k = lookupAttr a k := by
  unfold setdefaultAttr
  split
  · rfl
  · cases h : lookupAttr a k with
    | some w => exact lookupAttr_append_left h _
    | none =>
      rw [lookupAttr_append_right h]
      simp [lookupAttr, hne]

theorem lookupAttr_setdefault_self (a : Attrs) (k : String) (v : AttrValue) :
    lookupAttr (setdefaultAttr a k v) k = some ((lookupAttr a k).getD v) := by
  unfold setdefaultAttr
  cases h : lookupAttr a k with
  | some w => simp [h]
  | none =>
    simp only [h, Option.isSome_none, Bool.false_eq_true, if_false, Option.getD_none]
    rw [lookupAttr_append_right h]
    simp [lookupAttr]

theorem isEmpty_false_of_lookupAttr_some {a : Attrs} {k : String} {v : AttrValue}
    (h : lookupAttr a k = some v) : a.isEmpty = false := by
  cases a with
  | nil => simp [lookupAttr] at h
  | cons p rest => rfl

/-! ### Attribute composition lemmas -/

theorem lookupAttr_sd_docid_of_some {r : IngestDocumentRequest} {a : Attrs}
    {k : String} {v : AttrValue} (h : lookupAttr a k = some v) :
    lookupAttr (setdefault_document_id r a) k = some v := by
  unfold setdefault_document_id
  split
  · exact lookupAttr_setdefault_of_some h _ _
  · exact h

theorem lookupAttr_sd_docid_ne {r : IngestDocumentRequest} {a : Attrs}
    {k : String} (hne : ¬ "document_id" = k) :
    lookupAttr (setdefault_document_id r a) k = lookupAttr a k := by
  unfold setdefault_document_id
  split
  · exact lookupAttr_setdefault_ne hne _
  · rfl

theorem lookupAttr_sd_summary_of_some {r : IngestDocumentRequest} {a : Attrs}
    {k : String} {v : AttrValue} (h : lookupAttr a k = some v) :
    lookupAttr (setdefault_summary r a) k = some v := by
  unfold setdefault_summary
  split
  · exact lookupAttr_setdefault_of_some h _ _
  · exact h

theorem lookupAttr_sd_summary_ne {r : IngestDocumentRequest} {a : Attrs}
    {k : String} (hne : ¬ "summary" = k) :
    lookupAttr (setdefault_summary r a) k = lookupAttr a k := by
  unfold setdefault_summary
  split
  · exact lookupAttr_setdefault_ne hne _
  · rfl

/-- The ingested_at binding of the composed attributes is the caller's
    one when present, else the derived timestamp (setdefault
    semantics). -/
theorem lookupAttr_compose_ingested_at (r : IngestDocumentRequest)
    (nowIso : String) :
    lookupAttr (compose_attributes r nowIso) "ingested_at"
      = some ((lookupAttr (r.attributes.getD []) "ingested_at").getD
          (.s nowIso)) := by
  unfold compose_attributes
  rw [lookupAttr_setdefault_self,
    lookupAttr_sd_summary_ne (by decide),
    lookupAttr_sd_docid_ne (by decide)]

/-- Every caller-supplied binding survives attribute composition
    unchanged. -/
theorem lookupAttr_compose_of_some {r : IngestDocumentRequest}
    {nowIso : String} {k : String} {v : AttrValue}
    (h : lookupAttr (r.attributes.getD []) k = some v) :
    lookupAttr (compose_attributes r nowIso) k = some v := by
  unfold compose_attributes
  exact lookupAttr_setdefault_of_some
    (lookupAttr_sd_summary_of_some (lookupAttr_sd_docid_of_some h)) _ _

/-! ### Concrete fixtures used by witnesses and counterexamples -/

/-- An empty remote world: no stores, listing succeeds. -/
def w0 : RemoteWorld := {}

/-- A remote world holding one store with id "vs1" named "main". -/
def wVs1 : RemoteWorld := { stores := [⟨"vs1", some "main"⟩] }

/-- Settings with no configured defaults. -/
def st0 : Settings := {}

/-- A remote world whose listing call fails. -/
def wListFails : RemoteWorld := { listFails := true }

/-! ### Claim C1 -/

/-- C1 counterexample: a caller-supplied "ingested_at" binding is NOT
    overwritten by the derived timestamp; the composed attributes keep
    the caller's value, which differs from the current timestamp. -/
theorem ingested_at_not_overwritten_cx :
    (ingest_document wVs1 st0
        { content := "hello", vector_store_id := some "vs1",
          attributes := some [("ingested_at", AttrValue.s "caller-set")] }
        "2026-01-01T00:00:00+00:00" 0).2.2.calls
      = [RemoteCall.retrieveStore "vs1",
         RemoteCall.upload "vs1" "context-0.txt"
           (some [("ingested_at", AttrValue.s "caller-set")])]
    ∧ AttrValue.s "caller-set" ≠ AttrValue.s "2026-01-01T00:00:00+00:00" := by
  constructor
  · decide
  · decide

/-- C1 (amended): attribute composition sets "ingested_at" to the
    current UTC timestamp only when the caller did not supply that key;
    a caller-supplied "ingested_at" value is preserved unchanged
    (dict.setdefault semantics, the same rule as for the other derived
    keys). -/
theorem ingested_at_setdefault_semantics (r : IngestDocumentRequest)
    (nowIso : String) :
    (lookupAttr (r.attributes.getD []) "ingested_at" = none →
       lookupAttr (compose_attributes r nowIso) "ingested_at"
         = some (.s nowIso)) ∧
    ∀ v, lookupAttr (r.attributes.getD []) "ingested_at" = some v →
       lookupAttr (compose_attributes r nowIso) "ingested_at" = some v := by
  constructor
  · intro h
    rw [lookupAttr_compose_ingested_at, h]
    rfl
  · intro v h
    rw [lookupAttr_compose_ingested_at, h]
    rfl

/-- C1 witness: the amended theorem evaluated at a request without and
    at a request with a caller-supplied "ingested_at". -/
theorem ingested_at_setdefault_semantics_witness :
    lookupAttr
      (compose_attributes ({ content := "hello" } : IngestDocumentRequest)
        "2026-01-01T00:00:00+00:00") "ingested_at"
      = some (AttrValue.s "2026-01-01T00:00:00+00:00")
    ∧ lookupAttr
      (compose_attributes
        { content := "hello",
          attributes := some [("ingested_at", AttrValue.s "mine")] }
        "2026-01-01T00:00:00+00:00") "ingested_at"
      = some (AttrValue.s "mine") :=
  ⟨(ingested_at_setdefault_semantics { content := "hello" }
      "2026-01-01T00:00:00+00:00").1 rfl,
   (ingested_at_setdefault_semantics
      { content := "hello",
        attributes := some [("ingested_at", AttrValue.s "mine")] }
      "2026-01-01T00:00:00+00:00").2 (AttrValue.s "mine") rfl⟩

/-! ### Claim C6 -/

/-- C6: attribute composition never changes a caller-supplied binding
    (the composed map extends a copy of the caller's map), and the
    derived "document_id" and "summary" values are added only when the
    caller did not already supply those keys. -/
theorem caller_attributes_never_overwritten (r : IngestDocumentRequest)
    (nowIso : String) :
    (∀ k v, lookupAttr (r.attributes.getD []) k = some v →
       lookupAttr (compose_attributes r nowIso) k = some v) ∧
    (truthyStr r.document_id = true →
       lookupAttr (r.attributes.getD []) "document_id" = none →
       lookupAttr (compose_attributes r nowIso) "document_id"
         = some (.s (r.document_id.getD ""))) ∧
    (truthyStr r.summary = true →
       lookupAttr (r.attributes.getD []) "summary" = none →
       lookupAttr (compose_attributes r nowIso) "summary"
         = some (.s (r.summary.getD ""))) := by
  refine ⟨?_, ?_, ?_⟩
  · intro k v h
    exact lookupAttr_compose_of_some h
  · intro ht h0
    have hd : lookupAttr (setdefault_document_id r (r.attributes.getD []))
        "document_id" = some (.s (r.document_id.getD "")) := by
      unfold setdefault_document_id
      rw [if_pos ht, lookupAttr_setdefault_self, h0]
      rfl
    unfold compose_attributes
    exact lookupAttr_setdefault_of_some (lookupAttr_sd_summary_of_some hd) _ _
  · intro ht h0
    have h1 : lookupAttr (setdefault_document_id r (r.attributes.getD []))
        "summary" = none := by
      rw [lookupAttr_sd_docid_ne (by decide), h0]
    have h2 : lookupAttr (setdefault_summary r (setdefault_document_id r
        (r.attributes.getD []))) "summary" = some (.s (r.summary.getD "")) := by
      unfold setdefault_summary
      rw [if_pos ht, lookupAttr_setdefault_self, h1]
      rfl
    unfold compose_attributes
    exact lookupAttr_setdefault_of_some h2 _ _

/-- C6 witness: a caller-supplied "document_id" survives composition
    even though the request also carries a document_id field, and the
    derived "summary" is added when absent. -/
theorem caller_attributes_never_overwritten_witness :
    lookupAttr
      (compose_attributes
        { content := "c", document_id := some "derived",
          summary := some "s1",
          attributes := some [("document_id", AttrValue.s "mine")] } "T")
      "document_id" = some (AttrValue.s "mine")
    ∧ lookupAttr
      (compose_attributes
        { content := "c", document_id := some "derived",
          summary := some "s1",
          attributes := some [("document_id", AttrValue.s "mine")] } "T")
      "summary" = some (AttrValue.s "s1") :=
  ⟨(caller_attributes_never_overwritten
      { content := "c", document_id := some "derived", summary := some "s1",
        attributes := some [("document_id", AttrValue.s "mine")] } "T").1
      "document_id" (AttrValue.s "mine") rfl,
   (caller_attributes_never_overwritten
      { content := "c", document_id := some "derived", summary := some "s1",
        attributes := some [("document_id", AttrValue.s "mine")] } "T").2.2
      rfl rfl⟩

/-! ### Claim C9 -/

/-- C9: the composed attribute set always contains "ingested_at", hence
    is never empty, so the upload argument is always a real attribute
    mapping and the "no attributes" branch of `attributes or None` is
    unreachable. -/
theorem composed_attributes_nonempty (r : IngestDocumentRequest)
    (nowIso : String) :
    lookupAttr (compose_attributes r nowIso) "ingested_at" ≠ none ∧
    upload_attr_arg (compose_attributes r nowIso)
      = some (compose_attributes r nowIso) := by
  have h := lookupAttr_compose_ingested_at r nowIso
  have hne := isEmpty_false_of_lookupAttr_some h
  constructor
  · rw [h]
    exact Option.some_ne_none _
  · unfold upload_attr_arg
    rw [if_neg (by simp [hne])]

/-! ### Claim C4 -/

/-- C4: with a threshold T the retained results are exactly the ones
    whose score is at least T (equality passes, strictly smaller is
    dropped), without a threshold everything is kept, and the retained
    results appear in the original remote order (the output is the
    filtered list, a sublist of the full converted list). -/
theorem score_threshold_filter_exact (T : ℚ) (rs : List SearchResult) :
    collect_results (some T) rs
      = (rs.filter (fun r => decide (T ≤ r.score))).map to_retrieved_chunk ∧
    collect_results none rs = rs.map to_retrieved_chunk ∧
    List.Sublist (collect_results (some T) rs)
      (rs.map to_retrieved_chunk) := by
  have hkeep : ∀ r : SearchResult,
      keep_result (some T) r = decide (T ≤ r.score) := by
    intro r
    unfold keep_result
    by_cases h : r.score < T
    · have h2 : ¬ T ≤ r.score := not_le.mpr h
      simp [h, h2]
    · have h2 : T ≤ r.score := not_lt.mp h
      simp [h, h2]
  have h1 : collect_results (some T) rs
      = (rs.filter (fun r => decide (T ≤ r.score))).map to_retrieved_chunk := by
    induction rs with
    | nil => rfl
    | cons r rest ih =>
      by_cases h : T ≤ r.score
      · simp [collect_results, hkeep, h, List.filter_cons, ih]
      · simp [collect_results, hkeep, h, List.filter_cons, ih]
  have h2 : collect_results none rs = rs.map to_retrieved_chunk := by
    clear h1
    induction rs with
    | nil => rfl
    | cons r rest ih => simp [collect_results, keep_result, ih]
  refine ⟨h1, h2, ?_⟩
  rw [h1]
  exact List.Sublist.map _ (List.filter_sublist rs)

/-! ### String length helpers -/

theorem str_data_append (a b : String) : (a ++ b).data = a.data ++ b.data := by
  cases a
  cases b
  rfl

theorem str_len_append (a b : String) :
    (a ++ b).data.length = a.data.length + b.data.length := by
  rw [str_data_append]
  exact List.length_append _ _

/-- A filename derived without a usable document_id is never the bare
    extension ".txt". -/
theorem derive_filename_ne_txt (r : IngestDocumentRequest) (ts : Nat)
    (hd : truthyStr r.document_id = false) :
    derive_filename r ts ≠ ".txt" := by
  unfold derive_filename
  simp only [hd, Bool.false_eq_true, if_false]
  by_cases hs : truthyStr r.summary
  · rw [if_pos hs]
    intro heq
    set slug := takeChars 40
      (mapChars spaceToHyphen (mapChars Char.toLower (r.summary.getD "")))
      with hslug
    have h1 : 1 ≤ (if strIsEmpty slug then "context" else slug).data.length := by
      by_cases he : strIsEmpty slug
      · rw [if_pos he]
        decide
      · rw [if_neg he]
        have hne : slug.data ≠ [] := by
          intro hnil
          have : strIsEmpty slug = true := by
            unfold strIsEmpty
            rw [hnil]
            rfl
          exact he this
        exact List.length_pos.mpr hne
    have h2 := congrArg (fun s => s.data.length) heq
    simp only [str_len_append] at h2
    have h3 : ("-" : String).data.length = 1 := by decide
    have h4 : (".txt" : String).data.length = 4 := by decide
    rw [h3, h4] at h2
    omega
  · rw [if_neg hs]
    intro heq
    have h2 := congrArg (fun s => s.data.length) heq
    simp only [str_len_append] at h2
    have h3 : ("context-" : String).data.length = 8 := by decide
    have h4 : (".txt" : String).data.length = 4 := by decide
    rw [h3, h4] at h2
    omega

/-! ### Claim C10 -/

/-- C10: an empty-string document_id or summary behaves exactly like an
    absent field: attribute composition and filename derivation are
    unchanged when the empty string is replaced by None, and an empty
    document_id never produces the bare filename ".txt". -/
theorem empty_string_fields_behave_absent (r : IngestDocumentRequest)
    (nowIso : String) (ts : Nat) :
    (compose_attributes { r with document_id := some "" } nowIso
       = compose_attributes { r with document_id := none } nowIso) ∧
    (derive_filename { r with document_id := some "" } ts
       = derive_filename { r with document_id := none } ts) ∧
    (compose_attributes { r with summary := some "" } nowIso
       = compose_attributes { r with summary := none } nowIso) ∧
    (derive_filename { r with summary := some "" } ts
       = derive_filename { r with summary := none } ts) ∧
    derive_filename { r with document_id := some "" } ts ≠ ".txt" := by
  refine ⟨rfl, rfl, rfl, rfl, ?_⟩
  exact derive_filename_ne_txt _ ts rfl

/-! ### Claim C5 -/

/-- C5 counterexample: a request carrying the explicit (empty-string)
    filename "" does not get "" back; Python `or` treats "" as absent,
    so the filename is derived from document_id instead. -/
theorem explicit_empty_filename_cx :
    ingest_filename
      { content := "hi", filename := some "", document_id := some "doc1" } 7
      = "doc1.txt"
    ∧ ({ content := "hi", filename := some "", document_id := some "doc1" }
        : IngestDocumentRequest).filename = some ""
    ∧ ("doc1.txt" : String) ≠ "" := by
  refine ⟨rfl, rfl, by decide⟩

/-- C5 (amended): the result filename equals the explicit filename when
    a NON-EMPTY one is given (an empty-string filename behaves as
    absent); otherwise it is derived in priority order:
    "{document_id}.txt" when document_id is non-empty, else the slug of
    the first 40 characters of the summary (lowercased, spaces replaced
    by hyphens) followed by "-", the timestamp and ".txt" when the
    summary is non-empty, else "context-{timestamp}.txt". -/
theorem filename_derivation_priority (r : IngestDocumentRequest) (ts : Nat) :
    ingest_filename r ts =
      if truthyStr r.filename then r.filename.getD ""
      else if truthyStr r.document_id then r.document_id.getD "" ++ ".txt"
      else if truthyStr r.summary then
        mapChars spaceToHyphen (mapChars Char.toLower
          (takeChars 40 (r.summary.getD "")))
          ++ "-" ++ toString ts ++ ".txt"
      else "context-" ++ toString ts ++ ".txt" := by
  unfold ingest_filename derive_filename
  by_cases hf : truthyStr r.filename
  · rw [if_pos hf, if_pos hf]
  · rw [if_neg hf, if_neg hf]
    by_cases hd : truthyStr r.document_id
    · rw [if_pos hd, if_pos hd]
    · rw [if_neg hd, if_neg hd]
      by_cases hs : truthyStr r.summary
      · rw [if_pos hs, if_pos hs]
        cases hsum : r.summary with
        | none => rw [hsum] at hs; exact absurd hs (by decide)
        | some s =>
          simp only [Option.getD_some]
          have hsne : s.data ≠ [] := by
            rw [hsum] at hs
            simp only [truthyStr, strIsEmpty, Bool.not_eq_true'] at hs
            intro hnil
            rw [hnil] at hs
            simp at hs
          have hEq : takeChars 40 (mapChars spaceToHyphen
                (mapChars Char.toLower s))
              = mapChars spaceToHyphen (mapChars Char.toLower
                (takeChars 40 s)) := by
            unfold takeChars mapChars
            rw [List.map_take, List.map_take]
          have hNe : strIsEmpty (takeChars 40 (mapChars spaceToHyphen
              (mapChars Char.toLower s))) = false := by
            unfold strIsEmpty takeChars mapChars
            have h0 : 0 < s.data.length := List.length_pos.mpr hsne
            have hlen : 0 < (((s.data.map Char.toLower).map
                spaceToHyphen).take 40).length := by
              rw [List.length_take]
              simp only [List.length_map]
              omega
            cases hht : ((s.data.map Char.toLower).map spaceToHyphen).take 40 with
            | nil => rw [hht] at hlen; simp at hlen
            | cons x xs => simp [hht]
          rw [if_neg (by simp [hNe]), hEq]
      · rw [if_neg hs, if_neg hs]

/-- C9 witness: the theorem evaluated at a request with no caller
    attributes at all. -/
theorem composed_attributes_nonempty_witness :
    lookupAttr
      (compose_attributes ({ content := "c" } : IngestDocumentRequest) "T")
      "ingested_at" ≠ none
    ∧ upload_attr_arg
        (compose_attributes ({ content := "c" } : IngestDocumentRequest) "T")
      = some (compose_attributes ({ content := "c" } : IngestDocumentRequest)
          "T") :=
  composed_attributes_nonempty { content := "c" } "T"

/-- C10 witness: the theorem evaluated at a concrete request with a
    summary, at timestamp 7. -/
theorem empty_string_fields_behave_absent_witness :
    (compose_attributes
        { content := "c", summary := some "My Doc", document_id := some "" }
        "T"
      = compose_attributes
        { content := "c", summary := some "My Doc", document_id := none }
        "T")
    ∧ derive_filename
        { content := "c", summary := some "My Doc", document_id := some "" } 7
      ≠ ".txt" := by
  have h := empty_string_fields_behave_absent
    { content := "c", summary := some "My Doc" } "T" 7
  exact ⟨h.1, h.2.2.2.2⟩

/-! ### Claim C7 -/

/-- C7: blank content rejects ingestion, a blank query or an
    out-of-range max_results rejects retrieval, in each case with a
    validation error and an empty remote-call trace (the request never
    reaches the remote client); max_results = 1 and = 50 pass
    validation. -/
theorem validation_before_remote_calls (w : RemoteWorld) (st : Settings)
    (ri : IngestDocumentRequest) (rr : RetrieveRelevantChunksRequest)
    (nowIso : String) (nowTs : Nat) :
    (strIsEmpty (pyStrip ri.content) = true →
       ingest_document w st ri nowIso nowTs
         = (.error .validation, w, ⟨[], []⟩)) ∧
    (strIsEmpty (pyStrip rr.query) = true →
       retrieve_relevant_chunks w st rr
         = (.error .validation, w, ⟨[], []⟩)) ∧
    (∀ m : Int, rr.max_results = some m → (m < 1 ∨ 50 < m) →
       retrieve_relevant_chunks w st rr
         = (.error .validation, w, ⟨[], []⟩)) ∧
    ((rr.max_results = some 1 ∨ rr.max_results = some 50) →
       strIsEmpty (pyStrip rr.query) = false →
       validate_retrieve_request rr = .ok rr) := by
  refine ⟨?_, ?_, ?_, ?_⟩
  · intro h
    unfold ingest_document validate_ingest_request
    rw [if_pos h]
  · intro h
    unfold retrieve_relevant_chunks validate_retrieve_request
    by_cases hm : max_results_ok rr.max_results
    · rw [if_neg (by simp [hm]), if_pos h]
    · rw [if_pos (by simp [Bool.eq_false_iff.mpr hm])]
  · intro m hm hout
    have hbad : max_results_ok rr.max_results = false := by
      rw [hm]
      unfold max_results_ok
      rcases hout with h | h
      · simp
        intro h1
        omega
      · simp
        intro h1
        omega
    unfold retrieve_relevant_chunks validate_retrieve_request
    rw [if_pos (by simp [hbad])]
  · intro hm hq
    have hok : max_results_ok rr.max_results = true := by
      rcases hm with h | h
      · rw [h]; rfl
      · rw [h]; rfl
    unfold validate_retrieve_request
    rw [if_neg (by simp [hok]), if_neg (by simp [hq])]

/-- C7 witness: whitespace-only content, an over-limit max_results, and
    the accepted boundary value 50, each at concrete inputs. -/
theorem validation_before_remote_calls_witness :
    ingest_document w0 st0 { content := " " } "T" 0
      = (.error .validation, w0, ⟨[], []⟩)
    ∧ retrieve_relevant_chunks w0 st0 { query := "auth", max_results := some 51 }
      = (.error .validation, w0, ⟨[], []⟩)
    ∧ validate_retrieve_request { query := "auth", max_results := some 50 }
      = .ok { query := "auth", max_results := some 50 } := by
  refine ⟨?_, ?_, ?_⟩
  · exact (validation_before_remote_calls w0 st0 { content := " " }
      { query := "auth" } "T" 0).1 (by decide)
  · exact (validation_before_remote_calls w0 st0 { content := "c" }
      { query := "auth", max_results := some 51 } "T" 0).2.2.1 51 rfl
      (Or.inr (by omega))
  · exact (validation_before_remote_calls w0 st0 { content := "c" }
      { query := "auth", max_results := some 50 } "T" 0).2.2.2
      (Or.inr rfl) (by decide)

/-! ### Claim C3 -/

theorem vector_stores_retrieve_trace (w : RemoteWorld) (id : String) :
    (vector_stores_retrieve w id).2.2 = ⟨[.retrieveStore id], []⟩ := by
  unfold vector_stores_retrieve
  cases w.stores.find? (fun s => s.id == id) <;> rfl

/-- C3 counterexample: an explicit but EMPTY-STRING id is "present",
    yet Python truthiness makes resolution fall through to the name
    branch, and with name "kb" unmatched a create call IS issued —
    refuting "no create call is ever issued when an id is present". -/
theorem explicit_id_empty_string_create_cx :
    RemoteCall.createStore "kb" none ∈
      (ensure_vector_store w0 st0 (some "") (some "kb") none).2.2.calls := by
  decide

/-- C3 (amended): resolution follows the fixed order on the NON-EMPTY
    (Python-truthy) fields: a non-empty id is fetched directly and no
    create call is ever issued (even when a name is also set); else a
    non-empty name is looked up among the remote stores by exact
    case-sensitive equality and a store is created only when no match
    exists; else the configured default id (fetch), then the configured
    default name (find-or-create), else a configuration error.  An
    empty-string id or name behaves as absent. -/
theorem resolution_order (w : RemoteWorld) (st : Settings)
    (vid vname : Option String) (m : Option Attrs) :
    (truthyStr vid = true →
       ensure_vector_store w st vid vname m
         = vector_stores_retrieve w (vid.getD "")
       ∧ ∀ c ∈ (ensure_vector_store w st vid vname m).2.2.calls,
           c.isCreate = false) ∧
    (truthyStr vid = false → truthyStr vname = true →
       ensure_vector_store w st vid vname m
         = find_or_create w (vname.getD "") m) ∧
    (truthyStr vid = false → truthyStr vname = false →
       ensure_vector_store w st vid vname m
         = (if truthyStr st.default_vector_store_id then
              vector_stores_retrieve w (st.default_vector_store_id.getD "")
            else if truthyStr st.default_vector_store_name then
              find_or_create w (st.default_vector_store_name.getD "") m
            else (.error .configuration, w, ⟨[], []⟩))) ∧
    (∀ n s, w.listFails = false →
       w.stores.find? (fun x => x.name == some n) = some s →
       find_or_create w n m = (.ok s, w, ⟨[RemoteCall.listStores], []⟩)) ∧
    (∀ n, w.listFails = false →
       w.stores.find? (fun x => x.name == some n) = none →
       find_or_create w n m
         = (.ok ⟨freshId w, some n⟩,
            { w with stores := ⟨freshId w, some n⟩ :: w.stores },
            ⟨[RemoteCall.listStores, RemoteCall.createStore n m], []⟩)) := by
  refine ⟨?_, ?_, ?_, ?_, ?_⟩
  · intro h
    have he : ensure_vector_store w st vid vname m
        = vector_stores_retrieve w (vid.getD "") := by
      unfold ensure_vector_store
      rw [if_pos h]
    refine ⟨he, ?_⟩
    rw [he, vector_stores_retrieve_trace]
    intro c hc
    simp only [List.mem_singleton] at hc
    rw [hc]
    rfl
  · intro h1 h2
    unfold ensure_vector_store
    rw [if_neg (by simp [h1]), if_neg (by simp [h2])]
  · intro h1 h2
    unfold ensure_vector_store
    rw [if_neg (by simp [h1]), if_pos (by simp [h2])]
  · intro n s hlf hfind
    unfold find_or_create find_vector_store_by_name
    rw [if_neg (by simp [hlf]), hfind]
  · intro n hlf hfind
    unfold find_or_create find_vector_store_by_name
    rw [if_neg (by simp [hlf]), hfind]
    rfl

/-- C3 witness: the amended theorem evaluated on an empty remote world:
    a non-empty id resolves by fetch even with a name also set, a
    non-empty name alone resolves by find-or-create, and with no match
    the find-or-create path creates the named store. -/
theorem resolution_order_witness :
    (ensure_vector_store w0 st0 (some "vs1") (some "kb") none
       = vector_stores_retrieve w0 "vs1") ∧
    (ensure_vector_store w0 st0 none (some "kb") none
       = find_or_create w0 "kb" none) ∧
    (find_or_create w0 "kb" none
       = (.ok ⟨freshId w0, some "kb"⟩,
          { w0 with stores := [⟨freshId w0, some "kb"⟩] },
          ⟨[RemoteCall.listStores, RemoteCall.createStore "kb" none], []⟩)) :=
  ⟨((resolution_order w0 st0 (some "vs1") (some "kb") none).1 (by decide)).1,
   (resolution_order w0 st0 none (some "kb") none).2.1 (by decide) (by decide),
   (resolution_order w0 st0 none (some "kb") none).2.2.2.2 "kb" rfl rfl⟩

/-! ### Claim C8 -/

/-- C8: when the listing call fails during name-based resolution, the
    failure is not propagated: the name lookup reports "no match" and
    logs a warning, and resolution falls through to creating a store
    with the requested name. -/
theorem listing_failure_degrades_to_create (w : RemoteWorld) (st : Settings)
    (vname : Option String) (m : Option Attrs)
    (hf : w.listFails = true) (hn : truthyStr vname = true) :
    (find_vector_store_by_name w (vname.getD "")).1 = none ∧
    (find_vector_store_by_name w (vname.getD "")).2.warnings
      = ["Failed to list vector stores"] ∧
    (ensure_vector_store w st none vname m).1
      = .ok ⟨freshId w, some (vname.getD "")⟩ ∧
    (ensure_vector_store w st none vname m).2.2.calls
      = [RemoteCall.listStores, RemoteCall.createStore (vname.getD "") m] := by
  have hfb : find_vector_store_by_name w (vname.getD "")
      = (none, ⟨[.listStores], ["Failed to list vector stores"]⟩) := by
    unfold find_vector_store_by_name
    rw [if_pos hf]
  have hens : ensure_vector_store w st none vname m
      = (.ok ⟨freshId w, some (vname.getD "")⟩,
         { w with stores := ⟨freshId w, some (vname.getD "")⟩ :: w.stores },
         ⟨[RemoteCall.listStores, RemoteCall.createStore (vname.getD "") m],
          ["Failed to list vector stores"]⟩) := by
    unfold ensure_vector_store
    rw [if_neg (by decide), if_neg (by simp [hn])]
    unfold find_or_create
    rw [hfb]
    rfl
  exact ⟨by rw [hfb], by rw [hfb], by rw [hens], by rw [hens]⟩

/-- C8 witness: the theorem evaluated on a world whose listing call
    fails, with requested name "kb". -/
theorem listing_failure_degrades_to_create_witness :
    (find_vector_store_by_name wListFails "kb").1 = none ∧
    (find_vector_store_by_name wListFails "kb").2.warnings
      = ["Failed to list vector stores"] ∧
    (ensure_vector_store wListFails st0 none (some "kb") none).1
      = .ok ⟨freshId wListFails, some "kb"⟩ ∧
    (ensure_vector_store wListFails st0 none (some "kb") none).2.2.calls
      = [RemoteCall.listStores, RemoteCall.createStore "kb" none] :=
  listing_failure_degrades_to_create wListFails st0 (some "kb") none rfl
    (by decide)

/-! ### Claim C2 -/

/-- Settings whose only configured default is the store name "docs". -/
def stDocs : Settings := { default_vector_store_name := some "docs" }

/-- C2 counterexample: a retrieval request cannot carry a store name at
    all (the request model has no such field) and retrieve resolves
    with vector_store_name=None, so where an ingestion call with name
    "kb" lazily creates that store, the retrieval call in the same
    world issues no call and fails with a configuration error. -/
theorem retrieval_name_creation_cx :
    (RemoteCall.createStore "kb" (some []) ∈
       (ingest_document w0 st0
         { content := "hello", vector_store_name := some "kb" } "T" 0).2.2.calls) ∧
    ((retrieve_relevant_chunks w0 st0 { query := "auth" }).1
       = VSResult.error VSError.configuration) ∧
    ((retrieve_relevant_chunks w0 st0 { query := "auth" }).2.2.calls
       = []) := by
  refine ⟨by decide, by decide, rfl⟩

/-- C2 (amended): retrieval resolves its store through the same
    resolution function as ingestion, but always passes no store name
    (the retrieval request has no name field); consequently retrieval
    can lazily create a store only through the configured DEFAULT name,
    when no explicit id, no default id, and no matching remote store
    exist. -/
theorem retrieve_resolution_no_name (w : RemoteWorld) (st : Settings)
    (r : RetrieveRelevantChunksRequest) :
    (∀ e w2 t,
       ensure_vector_store w st r.vector_store_id none none
         = (.error e, w2, t) →
       retrieve w st r = (.error e, w2, t)) ∧
    (∀ vs w2 t,
       ensure_vector_store w st r.vector_store_id none none
         = (.ok vs, w2, t) →
       (retrieve w st r).2.2.calls
         = t.calls ++ [RemoteCall.search vs.id r.query
             (pyOrInt r.max_results st.default_max_results)]) ∧
    (truthyStr r.vector_store_id = false →
     truthyStr st.default_vector_store_id = false →
     truthyStr st.default_vector_store_name = true →
     (find_vector_store_by_name w
        (st.default_vector_store_name.getD "")).1 = none →
     RemoteCall.createStore (st.default_vector_store_name.getD "") none
       ∈ (retrieve w st r).2.2.calls) := by
  have herr : ∀ e w2 t,
      ensure_vector_store w st r.vector_store_id none none
        = (.error e, w2, t) →
      retrieve w st r = (.error e, w2, t) := by
    intro e w2 t h
    unfold retrieve
    rw [h]
  have hok : ∀ vs w2 t,
      ensure_vector_store w st r.vector_store_id none none
        = (.ok vs, w2, t) →
      (retrieve w st r).2.2.calls
        = t.calls ++ [RemoteCall.search vs.id r.query
            (pyOrInt r.max_results st.default_max_results)] := by
    intro vs w2 t h
    unfold retrieve
    rw [h]
    rfl
  refine ⟨herr, hok, ?_⟩
  intro h1 h2 h3 h4
  rcases hfb : find_vector_store_by_name w
      (st.default_vector_store_name.getD "") with ⟨o, tr⟩
  rw [hfb] at h4
  simp only at h4
  subst h4
  have hens : ensure_vector_store w st r.vector_store_id none none
      = (.ok (vector_stores_create w
            (st.default_vector_store_name.getD "") none).1,
         (vector_stores_create w
            (st.default_vector_store_name.getD "") none).2.1,
         tr.app (vector_stores_create w
            (st.default_vector_store_name.getD "") none).2.2) := by
    unfold ensure_vector_store
    rw [if_neg (by simp [h1]), if_pos (by decide), if_neg (by simp [h2]),
      if_pos (by simp [h3])]
    unfold find_or_create
    rw [hfb]
  have hcalls := hok _ _ _ hens
  rw [hcalls]
  simp [Trace.app, vector_stores_create]

/-- C2 witness: with no defaults a retrieval resolves to a
    configuration error without any remote call, and with a configured
    default name "docs" absent remotely the retrieval lazily creates
    that store. -/
theorem retrieve_resolution_no_name_witness :
    retrieve w0 st0 { query := "auth" }
      = (.error .configuration, w0, ⟨[], []⟩) ∧
    RemoteCall.createStore "docs" none
      ∈ (retrieve w0 stDocs { query := "auth" }).2.2.calls :=
  ⟨(retrieve_resolution_no_name w0 st0 { query := "auth" }).1
      .configuration w0 ⟨[], []⟩ rfl,
   (retrieve_resolution_no_name w0 stDocs { query := "auth" }).2.2
      rfl rfl (by decide) rfl⟩

end ContextDb
